import Mathlib

/-!
Shallow embedding of the task-management client (React/TypeScript frontend):
the Task Collection Manager (`src/contexts/TaskContext.tsx`), the Auth Session
Manager (`src/contexts/AuthContext.tsx`), the registration form
(`src/pages/Register.tsx`), the task form validation
(`components/Tasks/TaskForm`), the filter-to-query construction
(`src/pages/Tasks.tsx`), and the protected-route gate (`App.tsx`).

Asynchronous HTTP calls are embedded by passing the outcome of the request
explicitly: `ApiOutcome α` distinguishes a response with `success:true`
carrying a payload, a response with `success:false` (with optional message),
and a thrown transport error.  Each manager operation is a total Lean
function from the held state and the outcome to the new state and the value
the operation resolves to; totality of these functions is the embedding of
"the operation never throws past its own boundary".
-/

namespace TaskApp

/-- Task status enum from `TaskContext.tsx`: pending | in-progress | completed. -/
inductive Status where
  | pending
  | inProgress
  | completed
deriving DecidableEq, Repr

/-- Task priority enum from `TaskContext.tsx`: low | medium | high. -/
inductive Priority where
  | low
  | medium
  | high
deriving DecidableEq, Repr

/-- The Task record held by the client (interface Task in `TaskContext.tsx`).
Optional fields are `Option`; timestamps stay as the strings the API sends. -/
structure Task where
  _id : String
  title : String
  description : Option String
  status : Status
  priority : Priority
  dueDate : Option String
  category : Option String
  createdAt : String
  updatedAt : String
  completedAt : Option String
deriving DecidableEq, Repr

/-- The User record held by the client (interface User in `AuthContext.tsx`). -/
structure User where
  id : String
  name : String
  email : String
  role : String
  createdAt : String
  lastLogin : Option String
deriving DecidableEq, Repr

/-- Outcome of one API request, as observed by the caller of the HTTP client:
a `success:true` response carrying its payload, a `success:false` response
carrying an optional server message, or a thrown transport error carrying an
optional message (`error.response?.data?.message`). -/
inductive ApiOutcome (α : Type) where
  | ok (payload : α)
  | fail (message : Option String)
  | err (message : Option String)
deriving DecidableEq, Repr

/-- Auth session state: the token in local storage plus the in-memory user
(`localStorage` token and the `user` state of `AuthContext.tsx`). -/
structure AuthState where
  token : Option String
  user : Option User
deriving DecidableEq, Repr

/-- Embedding of `createTask` (`TaskContext.tsx` lines 95-113): on
`success:true` the returned record is prepended (`[response.data.data,
...prev]`) and the call resolves `true`; on `success:false` or a thrown
error the held list is untouched and the call resolves `false`. -/
def createTask (tasks : List Task) (outcome : ApiOutcome Task) :
    List Task × Bool :=
  match outcome with
  | .ok created => (created :: tasks, true)
  | .fail _ => (tasks, false)
  | .err _ => (tasks, false)

/-- Embedding of `updateTask` (`TaskContext.tsx` lines 115-135): on
`success:true` the held list is mapped, replacing each task whose `_id`
equals the given id by the returned record; on failure the list is
untouched and the call resolves `false`. -/
def updateTask (tasks : List Task) (id : String) (outcome : ApiOutcome Task) :
    List Task × Bool :=
  match outcome with
  | .ok updated =>
      (tasks.map fun t => if t._id == id then updated else t, true)
  | .fail _ => (tasks, false)
  | .err _ => (tasks, false)

/-- Embedding of `deleteTask` (`TaskContext.tsx` lines 137-155): on
`success:true` the held list is filtered to the tasks whose `_id` differs
from the given id; on failure the list is untouched and the call resolves
`false`.  The payload of a successful delete response is not used. -/
def deleteTask (tasks : List Task) (id : String) (outcome : ApiOutcome Task) :
    List Task × Bool :=
  match outcome with
  | .ok _ => (tasks.filter fun t => t._id != id, true)
  | .fail _ => (tasks, false)
  | .err _ => (tasks, false)

/-- Embedding of `getTask` (`TaskContext.tsx` lines 157-170): resolves to the
returned record on `success:true` and to `null` on any failure. -/
def getTask (outcome : ApiOutcome Task) : Option Task :=
  match outcome with
  | .ok t => some t
  | .fail _ => none
  | .err _ => none

/-- Embedding of the query-parameter loop of `fetchTasks`
(`TaskContext.tsx` lines 60-68): the filters object is a key-value list and
`params.append(key, filters[key])` runs exactly for the keys whose value is
truthy, which for strings means non-empty. -/
def buildQuery (filters : List (String × String)) : List (String × String) :=
  filters.filter fun kv => kv.2 != ""

/-- Embedding of the state update of `fetchTasks` (`TaskContext.tsx` lines
70-80): on `success:true` the held list is replaced wholesale by the
response data; otherwise it is left as it was. -/
def fetchTasks (tasks : List Task) (outcome : ApiOutcome (List Task)) :
    List Task :=
  match outcome with
  | .ok data => data
  | .fail _ => tasks
  | .err _ => tasks

/-- The filter record of `Tasks.tsx` (`useState` lines 29-33): three string
fields, empty string meaning "no constraint". -/
structure Filters where
  status : String
  priority : String
  category : String
deriving DecidableEq, Repr

/-- Embedding of `handleFilterChange` (`Tasks.tsx` lines 40-48): builds the
query object with exactly the non-empty fields, in the order status,
priority, category, and passes it to `fetchTasks`. -/
def handleFilterChange (f : Filters) : List (String × String) :=
  (if f.status != "" then [("status", f.status)] else []) ++
  (if f.priority != "" then [("priority", f.priority)] else []) ++
  (if f.category != "" then [("category", f.category)] else [])

/-- Embedding of `login` (`AuthContext.tsx` lines 55-74): a `success:true`
response carries `{token, user}`; the token is stored and the user set, and
the call resolves `true`.  On `success:false` or a thrown error the state is
untouched and the call resolves `false`. -/
def login (st : AuthState) (outcome : ApiOutcome (String × User)) :
    AuthState × Bool :=
  match outcome with
  | .ok (tk, u) => ({ token := some tk, user := some u }, true)
  | .fail _ => (st, false)
  | .err _ => (st, false)

/-- Embedding of `register` (`AuthContext.tsx` lines 76-95): identical
contract to `login` over `/auth/register`. -/
def register (st : AuthState) (outcome : ApiOutcome (String × User)) :
    AuthState × Bool :=
  match outcome with
  | .ok (tk, u) => ({ token := some tk, user := some u }, true)
  | .fail _ => (st, false)
  | .err _ => (st, false)

/-- Embedding of `updateProfile` (`AuthContext.tsx` lines 103-120): on
`success:true` the in-memory user is replaced by `response.data.user`; on
failure the state is untouched and the call resolves `false`. -/
def updateProfile (st : AuthState) (outcome : ApiOutcome User) :
    AuthState × Bool :=
  match outcome with
  | .ok u => ({ st with user := some u }, true)
  | .fail _ => (st, false)
  | .err _ => (st, false)

/-- Embedding of `logout` (`AuthContext.tsx` lines 97-101): clears the
stored token and the in-memory user. -/
def logout (_st : AuthState) : AuthState :=
  { token := none, user := none }

/-- Embedding of `checkAuthStatus` (`AuthContext.tsx` lines 33-53): with no
stored token nothing happens; with a token, `/auth/me` is requested, and a
`success:true` response sets the user, while a `success:false` response or
a thrown error removes the stored token and leaves the user as it was. -/
def checkAuthStatus (st : AuthState) (outcome : ApiOutcome User) : AuthState :=
  match st.token with
  | none => st
  | some _ =>
      match outcome with
      | .ok u => { st with user := some u }
      | .fail _ => { st with token := none }
      | .err _ => { st with token := none }

/-- Modelled from the spec: the API Client (`src/services/api.ts`) is not
among the available source files; per the spec (sections 2 and 6) its
response interceptor clears the session — token and user both destroyed —
on any response with unauthorized status (401), and passes every other
response through with the session untouched. -/
def interceptorOnResponse (st : AuthState) (status : Nat) : AuthState :=
  if status == 401 then { token := none, user := none } else st

/-- Render outcome of the routing gates in `App.tsx`. -/
inductive RouteResult where
  | spinner
  | content
  | redirectToLogin
deriving DecidableEq, Repr

/-- Embedding of `ProtectedRoute` (`App.tsx` lines 14-22): while loading it
renders a spinner; afterwards it renders its children when a user is
resolved and redirects to `/login` otherwise. -/
def protectedRoute (user : Option User) (loading : Bool) : RouteResult :=
  if loading then .spinner
  else
    match user with
    | some _ => .content
    | none => .redirectToLogin

/-- The registration form state of `Register.tsx` (lines 10-15). -/
structure RegisterForm where
  name : String
  email : String
  password : String
  confirmPassword : String
deriving DecidableEq, Repr

/-- The request body sent by `register` (`AuthContext.tsx` line 78 posts
exactly `{name, email, password}`). -/
structure RegisterRequest where
  name : String
  email : String
  password : String
deriving DecidableEq, Repr

/-- A character counted as non-whitespace, modelling the regex class \S. -/
def isNonspace (c : Char) : Bool :=
  !c.isWhitespace

/-- Embedding of the email shape check of `Register.tsx` line 40, the
unanchored test of the pattern +"@"+... (nonspace run, at-sign, nonspace
run, dot, nonspace run): some substring matches, which holds exactly when
the string has an at-sign preceded by a nonspace character and followed,
after a non-empty all-nonspace run, by a dot that is itself followed by a
nonspace character. -/
def emailShapeTest (s : String) : Bool :=
  let cs := s.data
  let n := cs.length
  (List.range n).any fun a =>
    (List.range n).any fun d =>
      decide (1 ≤ a) && decide (a + 2 ≤ d) && decide (d + 1 < n) &&
      (cs.getD a ' ' == '@') && (cs.getD d ' ' == '.') &&
      isNonspace (cs.getD (a - 1) ' ') &&
      isNonspace (cs.getD (d + 1) ' ') &&
      ((List.range (d - a - 1)).all fun k => isNonspace (cs.getD (a + 1 + k) ' '))

/-- Embedding of `validateForm` in `Register.tsx` (lines 29-58): the form
passes when the name is present with length at least 2, the email is
present and matches the shape pattern, the password is present with length
at least 6, and the confirmation is present and equals the password. -/
def validateRegisterForm (f : RegisterForm) : Bool :=
  (f.name != "" && decide (2 ≤ f.name.length)) &&
  (f.email != "" && emailShapeTest f.email) &&
  (f.password != "" && decide (6 ≤ f.password.length)) &&
  (f.confirmPassword != "" && f.password == f.confirmPassword)

/-- Embedding of `handleSubmit` in `Register.tsx` (lines 60-72): when
validation fails no request is made; otherwise `register` is invoked with
exactly the name, email and password fields of the form. -/
def registerSubmit (f : RegisterForm) : Option RegisterRequest :=
  if validateRegisterForm f then
    some { name := f.name, email := f.email, password := f.password }
  else
    none

/-- Milliseconds in a day. -/
def dayMs : Int := 86400000

/-- Epoch milliseconds of the value a date-only string such as 2026-10-11
parses to in JavaScript: UTC midnight of that calendar day (the day is a
count of days since the epoch). -/
def parseDateOnly (dueDay : Int) : Int :=
  dueDay * dayMs

/-- The local calendar day (days since epoch) of the instant `now` (epoch
milliseconds) in a timezone whose local clock reads UTC plus `offsetMs`. -/
def localDay (now offsetMs : Int) : Int :=
  Int.fdiv (now + offsetMs) dayMs

/-- Epoch milliseconds of the result of `new Date().setHours(0,0,0,0)` at
instant `now`: midnight of the current local calendar day, expressed back
as an epoch timestamp. -/
def setHoursZero (now offsetMs : Int) : Int :=
  localDay now offsetMs * dayMs - offsetMs

/-- Embedding of the due-date branch of `validateForm` in the TaskForm
component (lines 156-161): an error is reported exactly when the parsed due
date, UTC midnight of the chosen day, is strictly before the start of the
current local day. -/
def dueDateError (dueDay now offsetMs : Int) : Bool :=
  decide (parseDateOnly dueDay < setHoursZero now offsetMs)

/-- A concrete task used to instantiate the theorems below. -/
def sampleTask (i : String) : Task :=
  { _id := i, title := "t", description := none, status := .pending,
    priority := .medium, dueDate := none, category := none,
    createdAt := "", updatedAt := "", completedAt := none }

/-- A concrete user used to instantiate the theorems below. -/
def sampleUser : User :=
  { id := "u1", name := "Ann", email := "a@b.c", role := "user",
    createdAt := "", lastLogin := none }

/-- A concrete filter record used to instantiate the theorems below. -/
def sampleFilters : Filters :=
  { status := "completed", priority := "", category := "" }

/-- A concrete registration form used to instantiate the theorems below. -/
def sampleForm : RegisterForm :=
  { name := "Ann", email := "a@b.c", password := "secret1",
    confirmPassword := "secret1" }

/-- C1: when `createTask` succeeds, the record returned by the server is
prepended to the held list, becoming its first element with all previous
elements retained in order, and when it fails — `success:false` response or
thrown request — the held list is exactly the list held before the call. -/
theorem createTask_prepend_on_success_unchanged_on_failure
    (ts : List Task) (created : Task) (m m2 : Option String) :
    createTask ts (.ok created) = (created :: ts, true) ∧
    createTask ts (.fail m) = (ts, false) ∧
    createTask ts (.err m2) = (ts, false) := by
  simp [createTask]

/-- C2: when `updateTask id data` succeeds, every task in the held list
whose identifier equals `id` is replaced by the record returned by the
server, every task whose identifier differs is unchanged, and the length
and order of the list are preserved (stated position by position). -/
theorem updateTask_replaces_matching_record_in_place
    (ts : List Task) (i : String) (updated : Task) :
    (updateTask ts i (.ok updated)).2 = true ∧
    (updateTask ts i (.ok updated)).1.length = ts.length ∧
    ∀ (n : Nat) (t0 : Task), ts[n]? = some t0 →
      (updateTask ts i (.ok updated)).1[n]? =
        some (if t0._id = i then updated else t0) := by
  refine ⟨rfl, by simp [updateTask], ?_⟩
  intro n t0 h
  simp [updateTask, List.getElem?_map, h]

/-- Witness for C2 at a concrete list: position 0 holds the matching task
and is replaced by the server record. -/
theorem updateTask_replaces_matching_record_in_place_witness :
    (updateTask [sampleTask ("a"), sampleTask ("b")] ("a")
      (.ok (sampleTask ("c")))).1[0]? =
      some (if (sampleTask ("a"))._id = "a" then sampleTask ("c")
        else sampleTask ("a")) :=
  (updateTask_replaces_matching_record_in_place
    [sampleTask ("a"), sampleTask ("b")] ("a") (sampleTask ("c"))).2.2 0
    (sampleTask ("a")) (by decide)

/-- C3: when `deleteTask id` succeeds, the held list afterwards contains no
task whose identifier equals `id`, every task whose identifier differs is
retained, and the result is a sublist of the original list, so the
surviving tasks keep their original order. -/
theorem deleteTask_removes_matching_record
    (ts : List Task) (i : String) (payload : Task) :
    (deleteTask ts i (.ok payload)).2 = true ∧
    (∀ t ∈ (deleteTask ts i (.ok payload)).1, t._id ≠ i) ∧
    (∀ t ∈ ts, t._id ≠ i → t ∈ (deleteTask ts i (.ok payload)).1) ∧
    (deleteTask ts i (.ok payload)).1.Sublist ts := by
  refine ⟨rfl, ?_, ?_, ?_⟩
  · intro t ht
    simp [deleteTask, List.mem_filter] at ht
    exact ht.2
  · intro t ht hne
    simp [deleteTask, List.mem_filter]
    exact ⟨ht, hne⟩
  · exact List.filter_sublist ts

/-- Witness for C3 at a concrete list: the task with the other identifier
survives the delete. -/
theorem deleteTask_removes_matching_record_witness :
    sampleTask ("b") ∈
      (deleteTask [sampleTask ("a"), sampleTask ("b")] ("a")
        (.ok (sampleTask ("a")))).1 :=
  (deleteTask_removes_matching_record [sampleTask ("a"), sampleTask ("b")]
    ("a") (sampleTask ("a"))).2.2.1 (sampleTask ("b")) (by decide) (by decide)

/-- C4: the query parameters built for `fetchTasks` from a filter record
over the keys status, priority and category are exactly the pairs whose
value is a non-empty string — empty values contribute no parameter — and a
successful response replaces the entire held task list with the response
data, with no merge with the previously held list. -/
theorem fetchTasks_query_params_and_full_replacement
    (f : Filters) (ts data : List Task) (k v : String) :
    ((k, v) ∈ buildQuery (handleFilterChange f) ↔
      (((k = "status" ∧ v = f.status) ∨ (k = "priority" ∧ v = f.priority) ∨
        (k = "category" ∧ v = f.category)) ∧ v ≠ "")) ∧
    fetchTasks ts (.ok data) = data := by
  refine ⟨?_, rfl⟩
  by_cases h1 : f.status = "" <;> by_cases h2 : f.priority = "" <;>
    by_cases h3 : f.category = "" <;>
    simp [buildQuery, handleFilterChange, List.mem_filter, h1, h2, h3] <;>
    aesop

/-- Witness for C4 at a concrete filter record: a non-empty status value
appears in the built query. -/
theorem fetchTasks_query_params_and_full_replacement_witness :
    ("status", "completed") ∈ buildQuery (handleFilterChange sampleFilters) :=
  ((fetchTasks_query_params_and_full_replacement sampleFilters [] []
    ("status") ("completed")).1).mpr (by decide)

/-- C5: every public manager operation is a total function of the request
outcome — the embedding of never propagating an exception — and every
failure path, whether a `success:false` response or a thrown request,
resolves to the failure value: `false` for login, register, updateProfile,
createTask, updateTask and deleteTask, and `none` for getTask. -/
theorem manager_operations_resolve_failures_without_throwing
    (st : AuthState) (ts : List Task) (i : String) (m m2 : Option String) :
    (login st (.fail m)).2 = false ∧ (login st (.err m2)).2 = false ∧
    (register st (.fail m)).2 = false ∧ (register st (.err m2)).2 = false ∧
    (updateProfile st (.fail m)).2 = false ∧
    (updateProfile st (.err m2)).2 = false ∧
    (createTask ts (.fail m)).2 = false ∧ (createTask ts (.err m2)).2 = false ∧
    (updateTask ts i (.fail m)).2 = false ∧
    (updateTask ts i (.err m2)).2 = false ∧
    (deleteTask ts i (.fail m)).2 = false ∧
    (deleteTask ts i (.err m2)).2 = false ∧
    getTask (.fail m) = none ∧ getTask (.err m2) = none := by
  simp [login, register, updateProfile, createTask, updateTask, deleteTask,
    getTask]

/-- C6: on initialization with a token present and no resolved user, a
failing resolution of the current user — thrown request or `success:false`
response — removes the stored token and leaves the session unauthenticated,
while a successful resolution sets the returned user and keeps the token. -/
theorem checkAuthStatus_token_resolution
    (st : AuthState) (tk : String) (u : User) (m m2 : Option String)
    (htok : st.token = some tk) (huser : st.user = none) :
    checkAuthStatus st (.fail m) = { token := none, user := none } ∧
    checkAuthStatus st (.err m2) = { token := none, user := none } ∧
    checkAuthStatus st (.ok u) = { token := some tk, user := some u } := by
  obtain ⟨t, usr⟩ := st
  simp only at htok huser
  subst htok
  subst huser
  simp [checkAuthStatus]

/-- Witness for C6 at a concrete state: a successful resolution keeps the
token and sets the user. -/
theorem checkAuthStatus_token_resolution_witness :
    checkAuthStatus { token := some ("tok"), user := none } (.ok sampleUser) =
      { token := some ("tok"), user := some sampleUser } :=
  (checkAuthStatus_token_resolution { token := some ("tok"), user := none }
    ("tok") sampleUser none none rfl rfl).2.2

/-- C7 counterexample: in a timezone five hours behind UTC (offset
-18000000 ms), at 10:00 UTC of local calendar day 20000, a due date on that
same local calendar day is reported as in the past, because the due date
parses to UTC midnight of its day while the comparison bound is local
midnight, which lies later in absolute time.  This refutes the claim that
every due date on the current calendar day passes the check. -/
theorem dueDate_same_day_rejected_behind_utc :
    localDay (20000 * 86400000 + 36000000) (-18000000) = 20000 ∧
    dueDateError 20000 (20000 * 86400000 + 36000000) (-18000000) = true := by
  constructor <;> decide

/-- C7 amended: the due-date check truncates the current instant to local
midnight, so for every timezone offset the time of day of the current
instant never affects the outcome; a due date on a strictly earlier
calendar day than the current local day is reported as past in every real
timezone (offset below one day); but the same-day case is timezone
dependent: a due date equal to the current local calendar day is accepted
exactly in timezones at or ahead of UTC (nonnegative offset) and is
wrongly reported as past in every timezone strictly behind UTC, because
the due date parses to UTC midnight while the bound is local midnight. -/
theorem dueDate_day_granularity_timezone_dependent
    (dueDay now offsetMs : Int) :
    (0 ≤ offsetMs → dueDay = localDay now offsetMs →
      dueDateError dueDay now offsetMs = false) ∧
    (offsetMs < 0 → dueDay = localDay now offsetMs →
      dueDateError dueDay now offsetMs = true) ∧
    (offsetMs < dayMs → dueDay < localDay now offsetMs →
      dueDateError dueDay now offsetMs = true) ∧
    (∀ now2 : Int, localDay now2 offsetMs = localDay now offsetMs →
      dueDateError dueDay now2 offsetMs = dueDateError dueDay now offsetMs) := by
  refine ⟨?_, ?_, ?_, ?_⟩
  · intro hlo h
    subst h
    simp only [dueDateError, parseDateOnly, setHoursZero, dayMs,
      decide_eq_false_iff_not, not_lt]
    omega
  · intro hneg h
    subst h
    simp only [dueDateError, parseDateOnly, setHoursZero, dayMs,
      decide_eq_true_eq]
    omega
  · intro hhi h
    simp only [dayMs] at hhi
    simp only [dueDateError, parseDateOnly, setHoursZero, dayMs,
      decide_eq_true_eq]
    omega
  · intro now2 h
    simp only [dueDateError, parseDateOnly, setHoursZero, h]

/-- Witness for the amended C7 at a concrete instant: at UTC offset +3h, a
due date on the current local day passes the check. -/
theorem dueDate_day_granularity_timezone_dependent_witness :
    dueDateError 20000 (20000 * 86400000 + 36000000) 10800000 = false :=
  (dueDate_day_granularity_timezone_dependent 20000
    (20000 * 86400000 + 36000000) 10800000).1 (by decide) (by decide)

/-- C8: an unauthorized (401) response makes the API client interceptor
clear the session — token and user both destroyed — for every held session,
and a subsequent protected-view render with the cleared session redirects
to the login view.  The interceptor is modelled from the spec; the
protected-route gate is embedded from `App.tsx`. -/
theorem interceptor_clears_session_and_protected_route_redirects
    (st : AuthState) :
    interceptorOnResponse st 401 = { token := none, user := none } ∧
    protectedRoute (interceptorOnResponse st 401).user false =
      .redirectToLogin := by
  simp [interceptorOnResponse, protectedRoute]

/-- C9: when `updateTask id data` succeeds but no task in the held list has
identifier `id`, the held list is left exactly unchanged — the returned
record is neither appended nor inserted — while the operation still
reports success. -/
theorem updateTask_unmatched_id_leaves_list_unchanged
    (ts : List Task) (i : String) (updated : Task)
    (h : ∀ t ∈ ts, t._id ≠ i) :
    updateTask ts i (.ok updated) = (ts, true) := by
  simp only [updateTask, Prod.mk.injEq, and_true]
  have hmap : ∀ t ∈ ts, (if t._id == i then updated else t) = t := by
    intro t ht
    simp [h t ht]
  rw [List.map_congr_left hmap]
  simp

/-- Witness for C9 at a concrete list whose single task has an identifier
different from the updated one. -/
theorem updateTask_unmatched_id_leaves_list_unchanged_witness :
    updateTask [sampleTask ("a")] ("b") (.ok (sampleTask ("c"))) =
      ([sampleTask ("a")], true) :=
  updateTask_unmatched_id_leaves_list_unchanged [sampleTask ("a")] ("b")
    (sampleTask ("c")) (by decide)

/-- C10: a registration submission that passes validation invokes register
with exactly the name, email and password fields — the request record has
no confirmation field — so two validated forms agreeing on those three
fields produce identical requests, and validation forces the confirmation
to equal the password. -/
theorem register_request_has_exactly_name_email_password
    (f g : RegisterForm)
    (hf : validateRegisterForm f = true) (hg : validateRegisterForm g = true)
    (hn : f.name = g.name) (he : f.email = g.email)
    (hp : f.password = g.password) :
    registerSubmit f =
      some { name := f.name, email := f.email, password := f.password } ∧
    registerSubmit f = registerSubmit g ∧
    f.confirmPassword = f.password := by
  have hcp : f.password = f.confirmPassword := by
    simp only [validateRegisterForm, Bool.and_eq_true, bne_iff_ne, ne_eq,
      decide_eq_true_eq, beq_iff_eq] at hf
    tauto
  refine ⟨by simp [registerSubmit, hf], ?_, hcp.symm⟩
  simp [registerSubmit, hf, hg, hn, he, hp]

/-- Witness for C10 at a concrete validated form. -/
theorem register_request_has_exactly_name_email_password_witness :
    registerSubmit sampleForm =
      some { name := "Ann", email := "a@b.c", password := "secret1" } :=
  (register_request_has_exactly_name_email_password sampleForm sampleForm
    (by decide) (by decide) rfl rfl rfl).1

end TaskApp
